import Mathlib

/-!
Verification of the Metro-Quant strategy/risk core against its specification.

The Python source is shallowly embedded: floats become exact rationals (ℚ),
dictionaries become association lists, mutable objects become explicit state
records, and `None`-able fields become `Option`/`Bool`. Each definition below
mirrors one function of the source tree (file and function named in its doc
comment).
-/

namespace MetroQuant

/-! ## Position limiter (src/risk/limiter.py) -/

/-- Configuration of `PositionLimiter.__init__`: per-position and total
exposure caps (defaults 0.2 and 0.8). -/
structure PositionLimiter where
  max_position_pct : ℚ
  max_total_exposure_pct : ℚ
deriving Repr, DecidableEq

/-- The limiter the source constructs by default (`max_position_pct=0.2`,
`max_total_exposure_pct=0.8`). -/
def defaultLimiter : PositionLimiter := ⟨2/10, 8/10⟩

/-- `sum(abs(size) for sym, size in current_positions.items() if sym != symbol)`
from `PositionLimiter.check_limit` (limiter.py lines 80-83): total absolute
exposure of all positions other than `symbol`. -/
def exposureOthers (symbol : String) (current_positions : List (String × ℚ)) : ℚ :=
  ((current_positions.filter (fun p => p.1 ≠ symbol)).map (fun p => |p.2|)).sum

/-- `PositionLimiter.check_limit` (limiter.py lines 39-121). Returns the
adjusted position size: zero on non-positive capital, clamped to the
per-position cap (sign preserved), then clamped to the remaining total
exposure headroom (sign preserved), zero if no headroom remains. -/
def PositionLimiter.check_limit (pl : PositionLimiter) (proposed_size : ℚ)
    (symbol : String) (capital : ℚ) (current_positions : List (String × ℚ)) : ℚ :=
  if capital ≤ 0 then 0
  else
    -- proposed_pct = abs(proposed_size) / capital, then the per-position clamp
    let proposed_pct₀ := |proposed_size| / capital
    let proposed_size₁ :=
      if proposed_pct₀ > pl.max_position_pct then
        if proposed_size < 0 then -(pl.max_position_pct * capital)
        else pl.max_position_pct * capital
      else proposed_size
    let proposed_pct₁ :=
      if proposed_pct₀ > pl.max_position_pct then pl.max_position_pct else proposed_pct₀
    -- total-exposure check against positions in other symbols
    let current_exposure_pct := exposureOthers symbol current_positions / capital
    let total_exposure_pct := current_exposure_pct + proposed_pct₁
    if total_exposure_pct > pl.max_total_exposure_pct then
      let available_exposure_pct := pl.max_total_exposure_pct - current_exposure_pct
      if available_exposure_pct ≤ 0 then 0
      else
        if proposed_size₁ < 0 then -(available_exposure_pct * capital)
        else available_exposure_pct * capital
    else proposed_size₁

lemma exposureOthers_nonneg (symbol : String) (pos : List (String × ℚ)) :
    0 ≤ exposureOthers symbol pos := by
  unfold exposureOthers
  apply List.sum_nonneg
  intro x hx
  rcases List.mem_map.1 hx with ⟨p, _, rfl⟩
  exact abs_nonneg _

/-- Per-position bound of the default limiter: the adjusted size never exceeds
0.2 of capital in absolute value. -/
lemma check_limit_abs_le (x : ℚ) (symbol : String) (capital : ℚ)
    (pos : List (String × ℚ)) (hc : 0 < capital) :
    |defaultLimiter.check_limit x symbol capital pos| ≤ 2/10 * capital := by
  unfold PositionLimiter.check_limit
  have hc' : ¬ capital ≤ 0 := not_le.2 hc
  simp only [hc', if_false, defaultLimiter]
  set E := exposureOthers symbol pos with hE
  have hE0 : 0 ≤ E := exposureOthers_nonneg symbol pos
  have hdiv : E / capital * capital = E := div_mul_cancel₀ E (ne_of_gt hc)
  have havc : ((8:ℚ)/10 - E / capital) * capital = 8/10 * capital - E := by
    rw [sub_mul, hdiv]
  by_cases h1 : |x| / capital > 2/10
  · -- per-position clamp fires
    simp only [h1, if_true]
    by_cases h2 : E / capital + 2/10 > 8/10
    · simp only [h2, if_true]
      have h2' : 6/10 * capital < E := by
        have h6 : (6:ℚ)/10 < E / capital := by linarith
        exact (lt_div_iff₀ hc).1 h6
      by_cases h3 : (8:ℚ)/10 - E / capital ≤ 0
      · simp only [h3, if_true]
        simpa using by positivity
      · simp only [h3, if_false]
        push_neg at h3
        have h3' : E < 8/10 * capital := by
          have h8 : E / capital < 8/10 := by linarith
          exact (div_lt_iff₀ hc).1 h8
        by_cases hx : x < 0
        · simp only [hx, if_true]
          have hneg : -((2:ℚ)/10 * capital) < 0 := by nlinarith
          rw [if_pos hneg, abs_neg, abs_of_nonneg (by linarith), havc]
          linarith
        · simp only [hx, if_false]
          have hnn : ¬ ((2:ℚ)/10 * capital < 0) := not_lt.2 (by positivity)
          rw [if_neg hnn, abs_of_nonneg (by linarith), havc]
          linarith
    · simp only [h2, if_false]
      by_cases hx : x < 0
      · simp only [hx, if_true]
        rw [abs_neg, abs_of_nonneg (by positivity)]
      · simp only [hx, if_false]
        rw [abs_of_nonneg (by positivity)]
  · -- per-position cap already respected
    simp only [h1, if_false]
    push_neg at h1
    have hxle : |x| ≤ 2/10 * capital := (div_le_iff₀ hc).1 h1
    by_cases h2 : E / capital + |x| / capital > 8/10
    · simp only [h2, if_true]
      by_cases h3 : (8:ℚ)/10 - E / capital ≤ 0
      · simp only [h3, if_true]
        simpa using by positivity
      · simp only [h3, if_false]
        push_neg at h3
        have h3' : E < 8/10 * capital := by
          have h8 : E / capital < 8/10 := by linarith
          exact (div_lt_iff₀ hc).1 h8
        have hx0 : 0 ≤ |x| / capital := by positivity
        have h2' : 6/10 * capital < E := by
          have hxc : |x| / capital ≤ 2/10 := h1
          have h6 : (6:ℚ)/10 < E / capital := by linarith
          exact (lt_div_iff₀ hc).1 h6
        by_cases hx : x < 0
        · rw [if_pos (by simpa using hx), abs_neg, abs_of_nonneg (by linarith), havc]
          linarith
        · rw [if_neg (by simpa using hx), abs_of_nonneg (by linarith), havc]
          linarith
    · simp only [h2, if_false]
      exact hxle

/-- Total-exposure bound of the default limiter: when the other symbols'
exposure is itself within the 0.8 cap, adjusted size plus that exposure
stays within 0.8 of capital. -/
lemma check_limit_total_le (x : ℚ) (symbol : String) (capital : ℚ)
    (pos : List (String × ℚ)) (hc : 0 < capital)
    (hEcap : exposureOthers symbol pos ≤ 8/10 * capital) :
    |defaultLimiter.check_limit x symbol capital pos| + exposureOthers symbol pos
      ≤ 8/10 * capital := by
  unfold PositionLimiter.check_limit
  have hc' : ¬ capital ≤ 0 := not_le.2 hc
  simp only [hc', if_false, defaultLimiter]
  set E := exposureOthers symbol pos with hE
  have hE0 : 0 ≤ E := exposureOthers_nonneg symbol pos
  have hdiv : E / capital * capital = E := div_mul_cancel₀ E (ne_of_gt hc)
  have havc : ((8:ℚ)/10 - E / capital) * capital = 8/10 * capital - E := by
    rw [sub_mul, hdiv]
  by_cases h1 : |x| / capital > 2/10
  · simp only [h1, if_true]
    by_cases h2 : E / capital + 2/10 > 8/10
    · simp only [h2, if_true]
      by_cases h3 : (8:ℚ)/10 - E / capital ≤ 0
      · simp only [h3, if_true]
        simpa using hEcap
      · simp only [h3, if_false]
        push_neg at h3
        have h3' : E < 8/10 * capital := by
          have h8 : E / capital < 8/10 := by linarith
          exact (div_lt_iff₀ hc).1 h8
        by_cases hx : x < 0
        · simp only [hx, if_true]
          have hneg : -((2:ℚ)/10 * capital) < 0 := by nlinarith
          rw [if_pos hneg, abs_neg, abs_of_nonneg (by linarith), havc]
          linarith
        · simp only [hx, if_false]
          have hnn : ¬ ((2:ℚ)/10 * capital < 0) := not_lt.2 (by positivity)
          rw [if_neg hnn, abs_of_nonneg (by linarith), havc]
          linarith
    · simp only [h2, if_false]
      push_neg at h2
      have h2' : E + 2/10 * capital ≤ 8/10 * capital := by
        have := (div_le_iff₀ hc).1 (by linarith : E / capital ≤ 8/10 - 2/10)
        linarith
      by_cases hx : x < 0
      · simp only [hx, if_true]
        rw [abs_neg, abs_of_nonneg (by positivity)]
        linarith
      · simp only [hx, if_false]
        rw [abs_of_nonneg (by positivity)]
        linarith
  · simp only [h1, if_false]
    push_neg at h1
    by_cases h2 : E / capital + |x| / capital > 8/10
    · simp only [h2, if_true]
      by_cases h3 : (8:ℚ)/10 - E / capital ≤ 0
      · simp only [h3, if_true]
        simpa using hEcap
      · simp only [h3, if_false]
        push_neg at h3
        have h3' : E < 8/10 * capital := by
          have h8 : E / capital < 8/10 := by linarith
          exact (div_lt_iff₀ hc).1 h8
        by_cases hx : x < 0
        · rw [if_pos (by simpa using hx), abs_neg, abs_of_nonneg (by linarith), havc]
          linarith
        · rw [if_neg (by simpa using hx), abs_of_nonneg (by linarith), havc]
          linarith
    · simp only [h2, if_false]
      push_neg at h2
      have hsum : E + |x| ≤ 8/10 * capital := by
        have hcombined : (E + |x|) / capital ≤ 8/10 := by
          rw [add_div]
          exact h2
        exact (div_le_iff₀ hc).1 hcombined
      linarith

/-- A size already inside both caps passes `check_limit` unchanged. -/
lemma check_limit_fix (y : ℚ) (symbol : String) (capital : ℚ)
    (pos : List (String × ℚ)) (hc : 0 < capital)
    (h1 : |y| ≤ 2/10 * capital)
    (h2 : |y| + exposureOthers symbol pos ≤ 8/10 * capital) :
    defaultLimiter.check_limit y symbol capital pos = y := by
  unfold PositionLimiter.check_limit
  have hc' : ¬ capital ≤ 0 := not_le.2 hc
  simp only [hc', if_false, defaultLimiter]
  set E := exposureOthers symbol pos with hE
  have hb1 : ¬ |y| / capital > 2/10 := by
    rw [not_lt, div_le_iff₀ hc]
    linarith
  simp only [hb1, if_false]
  have hb2 : ¬ E / capital + |y| / capital > 8/10 := by
    rw [not_lt, div_add_div_same, div_le_iff₀ hc]
    linarith
  simp only [hb2, if_false]

/-- When the other symbols already use up the whole 0.8 cap, `check_limit`
returns zero for every proposed size. -/
lemma check_limit_of_exposure_exceeds (x : ℚ) (symbol : String) (capital : ℚ)
    (pos : List (String × ℚ)) (hc : 0 < capital)
    (hEcap : 8/10 * capital ≤ exposureOthers symbol pos) :
    defaultLimiter.check_limit x symbol capital pos = 0 := by
  unfold PositionLimiter.check_limit
  have hc' : ¬ capital ≤ 0 := not_le.2 hc
  simp only [hc', if_false, defaultLimiter]
  set E := exposureOthers symbol pos with hE
  have hE8 : (8:ℚ)/10 ≤ E / capital := by
    rw [le_div_iff₀ hc]
    linarith
  by_cases h1 : |x| / capital > 2/10
  · simp only [h1, if_true]
    have h2 : E / capital + 2/10 > 8/10 := by linarith
    simp only [h2, if_true]
    have h3 : (8:ℚ)/10 - E / capital ≤ 0 := by linarith
    simp only [h3, if_true]
  · simp only [h1, if_false]
    by_cases hx0 : |x| / capital > 0
    · have h2 : E / capital + |x| / capital > 8/10 := by linarith
      simp only [h2, if_true]
      have h3 : (8:ℚ)/10 - E / capital ≤ 0 := by linarith
      simp only [h3, if_true]
    · push_neg at hx0
      have hx : x = 0 := by
        have h0 : 0 ≤ |x| / capital := by positivity
        have hz : |x| / capital = 0 := le_antisymm hx0 h0
        field_simp at hz
        exact hz
      subst hx
      by_cases h2 : E / capital + |(0:ℚ)| / capital > 8/10
      · simp only [h2, if_true]
        have h3 : (8:ℚ)/10 - E / capital ≤ 0 := by linarith
        simp only [h3, if_true]
      · simp only [h2, if_false]

/-- C1 counterexample: the claim as stated fails when the other symbols'
pre-existing exposure already exceeds 0.8 of capital. With capital 100 and an
existing position of 90 in another symbol, `check_limit` returns 0, yet
0 plus the other-symbol exposure (90) exceeds 0.8 × 100 even after adding the
1e-6 tolerance. -/
theorem C1_counterexample :
    ¬ (|defaultLimiter.check_limit 10 "A" 100 [("B", 90)]|
        + exposureOthers "A" [("B", 90)] ≤ 8/10 * 100 + 1/1000000) := by
  have hexp : exposureOthers "A" [("B", 90)] = 90 := by
    norm_num [exposureOthers, List.filter_cons, List.filter_nil,
      if_neg (show ¬ (("B":String) = "A") by decide)]
  have h1 : defaultLimiter.check_limit 10 "A" 100 [("B", 90)] = 0 := by
    norm_num [PositionLimiter.check_limit, defaultLimiter, hexp]
  rw [h1, hexp]
  norm_num

/-- C1 (amended): for every capital > 0, symbol, proposed size and positions
map, the value returned by `PositionLimiter.check_limit` has absolute value at
most 0.2 × capital; and whenever the summed absolute exposure of the other
symbols is itself at most 0.8 × capital, that value's absolute value plus the
other symbols' exposure is at most 0.8 × capital. Both bounds are exact, hence
a fortiori hold within the 1e-6 tolerance. -/
theorem C1_exposure_caps (x : ℚ) (symbol : String) (capital : ℚ)
    (pos : List (String × ℚ)) (hc : 0 < capital) :
    |defaultLimiter.check_limit x symbol capital pos| ≤ 2/10 * capital ∧
    (exposureOthers symbol pos ≤ 8/10 * capital →
      |defaultLimiter.check_limit x symbol capital pos| + exposureOthers symbol pos
        ≤ 8/10 * capital) :=
  ⟨check_limit_abs_le x symbol capital pos hc,
   fun hEcap => check_limit_total_le x symbol capital pos hc hEcap⟩

/-- Witness for C1 at a concrete input. -/
theorem C1_exposure_caps_witness :
    (0:ℚ) < 100 ∧
    (|defaultLimiter.check_limit 50 "A" 100 [("B", 30)]| ≤ 2/10 * 100 ∧
     (exposureOthers "A" [("B", 30)] ≤ 8/10 * 100 →
       |defaultLimiter.check_limit 50 "A" 100 [("B", 30)]| + exposureOthers "A" [("B", 30)]
         ≤ 8/10 * 100)) :=
  ⟨by norm_num, C1_exposure_caps 50 "A" 100 [("B", 30)] (by norm_num)⟩

/-- C6: `PositionLimiter.check_limit` is idempotent for every positive capital:
running the adjusted size through the limiter again returns it unchanged. -/
theorem C6_check_limit_idempotent (x : ℚ) (symbol : String) (capital : ℚ)
    (pos : List (String × ℚ)) (hc : 0 < capital) :
    defaultLimiter.check_limit (defaultLimiter.check_limit x symbol capital pos)
        symbol capital pos
      = defaultLimiter.check_limit x symbol capital pos := by
  by_cases hEcap : exposureOthers symbol pos ≤ 8/10 * capital
  · exact check_limit_fix _ symbol capital pos hc
      (check_limit_abs_le x symbol capital pos hc)
      (check_limit_total_le x symbol capital pos hc hEcap)
  · push_neg at hEcap
    rw [check_limit_of_exposure_exceeds x symbol capital pos hc (le_of_lt hEcap)]
    exact check_limit_of_exposure_exceeds 0 symbol capital pos hc (le_of_lt hEcap)

/-- Witness for C6 at a concrete input. -/
theorem C6_check_limit_idempotent_witness :
    (0:ℚ) < 100 ∧
    defaultLimiter.check_limit (defaultLimiter.check_limit 70 "A" 100 [("B", 30)])
        "A" 100 [("B", 30)]
      = defaultLimiter.check_limit 70 "A" 100 [("B", 30)] :=
  ⟨by norm_num, C6_check_limit_idempotent 70 "A" 100 [("B", 30)] (by norm_num)⟩

/-- C9: for every limiter configuration, symbol, positions map and proposed
size, `check_limit` called with capital ≤ 0 returns exactly 0 instead of
raising (limiter.py lines 58-60). -/
theorem C9_nonpositive_capital (pl : PositionLimiter) (x : ℚ) (symbol : String)
    (capital : ℚ) (pos : List (String × ℚ)) (hc : capital ≤ 0) :
    pl.check_limit x symbol capital pos = 0 := by
  unfold PositionLimiter.check_limit
  simp only [hc, if_true]

/-- Witness for C9 at a concrete input. -/
theorem C9_nonpositive_capital_witness :
    (-5:ℚ) ≤ 0 ∧ defaultLimiter.check_limit 7 "X" (-5) [("Y", 12)] = 0 :=
  ⟨by norm_num, C9_nonpositive_capital defaultLimiter 7 "X" (-5) [("Y", 12)] (by norm_num)⟩

/-! ## Drawdown monitor (src/risk/drawdown.py) -/

/-- State of `DrawdownMonitor`. The two `datetime` trigger fields of the
source (`reduction_triggered_at`, `safe_mode_triggered_at`) are modelled by
the booleans recording whether they are set (the code only ever compares them
against `None`). -/
structure DrawdownMonitor where
  initial_capital : ℚ
  reduction_threshold : ℚ
  safe_mode_threshold : ℚ
  peak_capital : ℚ
  current_capital : ℚ
  current_drawdown : ℚ
  max_drawdown : ℚ
  in_safe_mode : Bool
  reduction_triggered : Bool
  safe_mode_triggered : Bool
deriving Repr, DecidableEq

/-- `DrawdownMonitor.__init__` (drawdown.py lines 20-49): peak and current
capital start at the initial capital, drawdowns at zero, no flags set. -/
def DrawdownMonitor.init (initial_capital reduction_threshold safe_mode_threshold : ℚ) :
    DrawdownMonitor where
  initial_capital := initial_capital
  reduction_threshold := reduction_threshold
  safe_mode_threshold := safe_mode_threshold
  peak_capital := initial_capital
  current_capital := initial_capital
  current_drawdown := 0
  max_drawdown := 0
  in_safe_mode := false
  reduction_triggered := false
  safe_mode_triggered := false

/-- First phase of `DrawdownMonitor.update` (drawdown.py lines 64-75): store
the new capital and, on a new high (or a value equal to the peak), move the
peak up and clear the reduction trigger. -/
def DrawdownMonitor.updateCapitalAndPeak (m : DrawdownMonitor) (current_capital : ℚ) :
    DrawdownMonitor :=
  let m₁ := { m with current_capital := current_capital }
  if current_capital ≥ m₁.peak_capital then
    { m₁ with peak_capital := current_capital, reduction_triggered := false }
  else m₁

/-- Second phase of `DrawdownMonitor.update` (drawdown.py lines 77-86):
recompute the drawdown from the peak (zero when the peak is nonpositive) and
raise the max drawdown if exceeded. -/
def DrawdownMonitor.recomputeDrawdown (m : DrawdownMonitor) (current_capital : ℚ) :
    DrawdownMonitor :=
  let m₂ :=
    if m.peak_capital > 0 then
      { m with current_drawdown := (m.peak_capital - current_capital) / m.peak_capital }
    else { m with current_drawdown := 0 }
  if m₂.current_drawdown > m₂.max_drawdown then
    { m₂ with max_drawdown := m₂.current_drawdown }
  else m₂

/-- Third phase of `DrawdownMonitor.update` (drawdown.py lines 88-105): check
the safe-mode threshold first and the reduction threshold second, each with
the source's 1e-10 float-comparison tolerance; the reduction trigger is only
set when not already in safe mode. -/
def DrawdownMonitor.applyThresholds (m : DrawdownMonitor) : DrawdownMonitor :=
  if m.current_drawdown ≥ m.safe_mode_threshold - 1/10000000000 then
    if ¬ m.in_safe_mode then
      { m with in_safe_mode := true, safe_mode_triggered := true }
    else m
  else if m.current_drawdown ≥ m.reduction_threshold - 1/10000000000 ∧ ¬ m.in_safe_mode then
    if ¬ m.reduction_triggered then { m with reduction_triggered := true } else m
  else m

/-- `DrawdownMonitor.update` (drawdown.py lines 57-112): the three phases
above, in the source's order. -/
def DrawdownMonitor.update (m : DrawdownMonitor) (current_capital : ℚ) : DrawdownMonitor :=
  ((m.updateCapitalAndPeak current_capital).recomputeDrawdown current_capital).applyThresholds

/-- `DrawdownMonitor.get_multiplier` (drawdown.py lines 114-129). -/
def DrawdownMonitor.get_multiplier (m : DrawdownMonitor) : ℚ :=
  if m.in_safe_mode then 0
  else if m.reduction_triggered then 1/2
  else 1

/-- `DrawdownMonitor.is_safe_mode` (drawdown.py lines 131-138). -/
def DrawdownMonitor.is_safe_mode (m : DrawdownMonitor) : Bool := m.in_safe_mode

/-- `DrawdownMonitor.is_reduction_active` (drawdown.py lines 140-147). -/
def DrawdownMonitor.is_reduction_active (m : DrawdownMonitor) : Bool :=
  m.reduction_triggered && !m.in_safe_mode

/-- `DrawdownMonitor.reset_safe_mode` (drawdown.py lines 178-188). -/
def DrawdownMonitor.reset_safe_mode (m : DrawdownMonitor) : DrawdownMonitor :=
  { m with in_safe_mode := false, safe_mode_triggered := false, reduction_triggered := false }

/-- A sequence of `update` calls, oldest capital first. -/
def DrawdownMonitor.updates (m : DrawdownMonitor) (capitals : List ℚ) : DrawdownMonitor :=
  capitals.foldl DrawdownMonitor.update m

lemma updateCapitalAndPeak_safe (m : DrawdownMonitor) (c : ℚ) :
    (m.updateCapitalAndPeak c).in_safe_mode = m.in_safe_mode := by
  unfold DrawdownMonitor.updateCapitalAndPeak
  dsimp only
  split_ifs <;> rfl

lemma updateCapitalAndPeak_peak (m : DrawdownMonitor) (c : ℚ) :
    (m.updateCapitalAndPeak c).peak_capital =
      if c ≥ m.peak_capital then c else m.peak_capital := by
  unfold DrawdownMonitor.updateCapitalAndPeak
  dsimp only
  split_ifs <;> rfl

lemma recomputeDrawdown_safe (m : DrawdownMonitor) (c : ℚ) :
    (m.recomputeDrawdown c).in_safe_mode = m.in_safe_mode := by
  unfold DrawdownMonitor.recomputeDrawdown
  dsimp only
  split_ifs <;> rfl

lemma recomputeDrawdown_peak (m : DrawdownMonitor) (c : ℚ) :
    (m.recomputeDrawdown c).peak_capital = m.peak_capital := by
  unfold DrawdownMonitor.recomputeDrawdown
  dsimp only
  split_ifs <;> rfl

lemma recomputeDrawdown_dd (m : DrawdownMonitor) (c : ℚ) :
    (m.recomputeDrawdown c).current_drawdown =
      if m.peak_capital > 0 then (m.peak_capital - c) / m.peak_capital else 0 := by
  unfold DrawdownMonitor.recomputeDrawdown
  dsimp only
  split_ifs <;> rfl

lemma applyThresholds_safe_mono (m : DrawdownMonitor)
    (h : m.in_safe_mode = true) : m.applyThresholds.in_safe_mode = true := by
  unfold DrawdownMonitor.applyThresholds
  split_ifs <;> simp_all

lemma applyThresholds_dd (m : DrawdownMonitor) :
    m.applyThresholds.current_drawdown = m.current_drawdown := by
  unfold DrawdownMonitor.applyThresholds
  split_ifs <;> rfl

lemma applyThresholds_peak (m : DrawdownMonitor) :
    m.applyThresholds.peak_capital = m.peak_capital := by
  unfold DrawdownMonitor.applyThresholds
  split_ifs <;> rfl

/-- One `update` call never clears the safe-mode flag. -/
lemma update_safe_mode_mono (m : DrawdownMonitor) (c : ℚ)
    (h : m.in_safe_mode = true) : (m.update c).in_safe_mode = true := by
  unfold DrawdownMonitor.update
  apply applyThresholds_safe_mono
  rw [recomputeDrawdown_safe, updateCapitalAndPeak_safe]
  exact h

/-- C3: once the monitor is in safe mode, no sequence of `update` calls — for
any capital values, new equity peaks included — clears it: `is_safe_mode`
stays true and `get_multiplier` stays 0 until `reset_safe_mode` is called. -/
theorem C3_safe_mode_sticky (m : DrawdownMonitor) (capitals : List ℚ)
    (h : m.in_safe_mode = true) :
    (m.updates capitals).is_safe_mode = true ∧
    (m.updates capitals).get_multiplier = 0 := by
  have hs : (m.updates capitals).in_safe_mode = true := by
    unfold DrawdownMonitor.updates
    induction capitals generalizing m with
    | nil => exact h
    | cons c cs ih => exact ih _ (update_safe_mode_mono m c h)
  refine ⟨hs, ?_⟩
  unfold DrawdownMonitor.get_multiplier
  simp [hs]

/-- Witness for C3: a monitor driven into safe mode by a 26% drawdown stays
there through a recovery to new equity peaks. -/
theorem C3_safe_mode_sticky_witness :
    ((DrawdownMonitor.init 100000 (15/100) (25/100)).update 74000).in_safe_mode = true ∧
    (((((DrawdownMonitor.init 100000 (15/100) (25/100)).update 74000).updates
        [101000, 200000]).is_safe_mode = true) ∧
     ((((DrawdownMonitor.init 100000 (15/100) (25/100)).update 74000).updates
        [101000, 200000]).get_multiplier = 0)) :=
  ⟨by norm_num [DrawdownMonitor.init, DrawdownMonitor.update, DrawdownMonitor.updateCapitalAndPeak, DrawdownMonitor.recomputeDrawdown, DrawdownMonitor.applyThresholds],
   C3_safe_mode_sticky _ [101000, 200000]
     (by norm_num [DrawdownMonitor.init, DrawdownMonitor.update, DrawdownMonitor.updateCapitalAndPeak, DrawdownMonitor.recomputeDrawdown, DrawdownMonitor.applyThresholds])⟩

/-- C5 counterexample: calling `update` with a negative capital pushes the
stored drawdown above 1, violating `0 ≤ drawdown ≤ 1` as claimed. -/
theorem C5_counterexample :
    ¬ (((DrawdownMonitor.init 100000 (15/100) (25/100)).update (-1)).current_drawdown ≤ 1) := by
  norm_num [DrawdownMonitor.init, DrawdownMonitor.update, DrawdownMonitor.updateCapitalAndPeak, DrawdownMonitor.recomputeDrawdown, DrawdownMonitor.applyThresholds]

/-- `update` keeps the peak positive. -/
lemma update_peak_pos (m : DrawdownMonitor) (c : ℚ) (hp : 0 < m.peak_capital) :
    0 < (m.update c).peak_capital := by
  unfold DrawdownMonitor.update
  rw [applyThresholds_peak, recomputeDrawdown_peak, updateCapitalAndPeak_peak]
  split_ifs with h
  · linarith
  · exact hp

/-- With a positive peak and a nonnegative capital value, one `update` leaves
the drawdown inside `[0, 1]`. -/
lemma update_drawdown_bounds (m : DrawdownMonitor) (c : ℚ)
    (hp : 0 < m.peak_capital) (hc : 0 ≤ c) :
    0 ≤ (m.update c).current_drawdown ∧ (m.update c).current_drawdown ≤ 1 := by
  unfold DrawdownMonitor.update
  rw [applyThresholds_dd, recomputeDrawdown_dd, updateCapitalAndPeak_peak]
  by_cases h1 : c ≥ m.peak_capital
  · have hcpos : 0 < c := lt_of_lt_of_le hp h1
    simp only [h1, if_true, hcpos, gt_iff_lt, if_pos hcpos]
    rw [sub_self, zero_div]
    norm_num
  · simp only [h1, if_false, gt_iff_lt, if_pos hp]
    push_neg at h1
    constructor
    · exact div_nonneg (by linarith) (le_of_lt hp)
    · rw [div_le_one hp]
      linarith

/-- The `[0, 1]` drawdown bound survives any sequence of nonnegative-capital
updates, given a positive peak. -/
lemma updates_drawdown_invariant (capitals : List ℚ) (m : DrawdownMonitor)
    (hp : 0 < m.peak_capital)
    (hd0 : 0 ≤ m.current_drawdown) (hd1 : m.current_drawdown ≤ 1)
    (hcs : ∀ c ∈ capitals, 0 ≤ c) :
    0 ≤ (m.updates capitals).current_drawdown ∧
    (m.updates capitals).current_drawdown ≤ 1 := by
  unfold DrawdownMonitor.updates
  induction capitals generalizing m with
  | nil => exact ⟨hd0, hd1⟩
  | cons c cs ih =>
    have hc : 0 ≤ c := hcs c (List.mem_cons_self c cs)
    have hbounds := update_drawdown_bounds m c hp hc
    exact ih (m.update c) (update_peak_pos m c hp) hbounds.1 hbounds.2
      (fun x hx => hcs x (List.mem_cons_of_mem c hx))

/-- C5 (amended): starting from any positive initial capital, after every
sequence of `update` calls whose capital arguments are all nonnegative (zero
included), the stored drawdown satisfies `0 ≤ current_drawdown ≤ 1`. A
negative capital argument breaks the upper bound (see the counterexample). -/
theorem C5_drawdown_range (c₀ r s : ℚ) (capitals : List ℚ) (h₀ : 0 < c₀)
    (hcs : ∀ c ∈ capitals, 0 ≤ c) :
    0 ≤ ((DrawdownMonitor.init c₀ r s).updates capitals).current_drawdown ∧
    ((DrawdownMonitor.init c₀ r s).updates capitals).current_drawdown ≤ 1 :=
  updates_drawdown_invariant capitals (DrawdownMonitor.init c₀ r s) h₀ le_rfl
    (by norm_num [DrawdownMonitor.init]) hcs

/-- Witness for C5 at a concrete run including a zero-capital update. -/
theorem C5_drawdown_range_witness :
    (0:ℚ) < 100000 ∧
    (0 ≤ ((DrawdownMonitor.init 100000 (15/100) (25/100)).updates
        [84000, 0, 120000]).current_drawdown ∧
     ((DrawdownMonitor.init 100000 (15/100) (25/100)).updates
        [84000, 0, 120000]).current_drawdown ≤ 1) :=
  ⟨by norm_num,
   C5_drawdown_range 100000 (15/100) (25/100) [84000, 0, 120000] (by norm_num)
     (by intro c hc; fin_cases hc <;> norm_num)⟩

/-- C7: the concrete drawdown-threshold scenario of the spec. From initial
capital 100000 with default thresholds: `update 84000` gives drawdown 0.16,
multiplier 0.5, reduction active, not safe; a further `update 74000` gives
drawdown 0.26, multiplier 0, safe mode; whereas `update 101000` after the
84000 step clears the reduction and restores multiplier 1. -/
theorem C7_threshold_scenario :
    (((DrawdownMonitor.init 100000 (15/100) (25/100)).update 84000).current_drawdown = 16/100 ∧
     ((DrawdownMonitor.init 100000 (15/100) (25/100)).update 84000).get_multiplier = 1/2 ∧
     ((DrawdownMonitor.init 100000 (15/100) (25/100)).update 84000).is_reduction_active = true ∧
     ((DrawdownMonitor.init 100000 (15/100) (25/100)).update 84000).is_safe_mode = false) ∧
    ((((DrawdownMonitor.init 100000 (15/100) (25/100)).update 84000).update 74000).current_drawdown = 26/100 ∧
     (((DrawdownMonitor.init 100000 (15/100) (25/100)).update 84000).update 74000).get_multiplier = 0 ∧
     (((DrawdownMonitor.init 100000 (15/100) (25/100)).update 84000).update 74000).is_safe_mode = true) ∧
    ((((DrawdownMonitor.init 100000 (15/100) (25/100)).update 84000).update 101000).is_reduction_active = false ∧
     (((DrawdownMonitor.init 100000 (15/100) (25/100)).update 84000).update 101000).get_multiplier = 1) := by
  norm_num [DrawdownMonitor.init, DrawdownMonitor.update, DrawdownMonitor.updateCapitalAndPeak,
    DrawdownMonitor.recomputeDrawdown, DrawdownMonitor.applyThresholds,
    DrawdownMonitor.get_multiplier, DrawdownMonitor.is_reduction_active, DrawdownMonitor.is_safe_mode]

/-! ## Backtest engine (src/backtest/engine.py) -/

/-- `Backtester._validate_chronological_order` (engine.py lines 234-247),
applied to the `.timestamp` projection of the input list: the loop returns
false exactly when some element's timestamp is strictly below its
predecessor's; lists of fewer than two elements pass. -/
def validateChronologicalOrder : List ℚ → Bool
  | [] => true
  | [_] => true
  | t₁ :: t₂ :: rest =>
    if t₂ < t₁ then false else validateChronologicalOrder (t₂ :: rest)

/-- The chronology gate at the top of `Backtester.run` (engine.py lines
174-179): market data failing validation raises `ValueError`, then a
non-empty signal list failing validation raises; otherwise the run
proceeds. -/
def runChronologyGate (market_ts signal_ts : List ℚ) : Except String Unit :=
  if ¬ validateChronologicalOrder market_ts then
    Except.error "Market data must be in chronological order"
  else if signal_ts ≠ [] ∧ ¬ validateChronologicalOrder signal_ts then
    Except.error "Signals must be in chronological order"
  else Except.ok ()

lemma validate_iff_chain (ts : List ℚ) :
    validateChronologicalOrder ts = true ↔ List.Chain' (· ≤ ·) ts := by
  induction ts with
  | nil => simp [validateChronologicalOrder]
  | cons t rest ih =>
    cases rest with
    | nil => simp [validateChronologicalOrder]
    | cons t₂ rest₂ =>
      rw [validateChronologicalOrder, List.chain'_cons]
      by_cases h : t₂ < t
      · simp [if_pos h, not_le.2 h]
      · rw [if_neg h, ih]
        push_neg at h
        simp [h]

/-- C2 counterexample: a market-data sequence with two equal timestamps is not
strictly increasing, yet the chronology gate of `run` accepts it without
raising — the validator only rejects strictly decreasing adjacent
timestamps. -/
theorem C2_counterexample :
    runChronologyGate [0, 0] [] = Except.ok () ∧
    ¬ List.Chain' (· < ·) [(0:ℚ), 0] := by
  constructor
  · norm_num [runChronologyGate, validateChronologicalOrder]
  · simp [List.chain'_cons]

/-- C2 (amended): `Backtester.run` fails with the chronology error exactly
when the market-data timestamps, or those of a non-empty signal sequence,
contain an adjacent strictly decreasing pair; adjacent equal timestamps are
accepted (the inputs are required to be non-decreasing, not strictly
increasing). -/
theorem C2_chronology_gate (market_ts signal_ts : List ℚ) :
    (∃ e, runChronologyGate market_ts signal_ts = Except.error e) ↔
      (¬ List.Chain' (· ≤ ·) market_ts ∨
       (signal_ts ≠ [] ∧ ¬ List.Chain' (· ≤ ·) signal_ts)) := by
  unfold runChronologyGate
  by_cases h1 : validateChronologicalOrder market_ts = true
  · rw [if_neg (by simp [h1])]
    by_cases h2 : signal_ts ≠ [] ∧ ¬ validateChronologicalOrder signal_ts = true
    · rw [if_pos (by simpa using h2)]
      exact iff_of_true ⟨_, rfl⟩
        (Or.inr ⟨h2.1, fun hch => h2.2 ((validate_iff_chain signal_ts).2 hch)⟩)
    · rw [if_neg (by simpa using h2)]
      refine iff_of_false ?_ ?_
      · rintro ⟨e, he⟩
        exact Except.noConfusion he
      · rintro (hmkt | ⟨hne, hsig⟩)
        · exact hmkt ((validate_iff_chain market_ts).1 h1)
        · exact h2 ⟨hne, fun hv => hsig ((validate_iff_chain signal_ts).1 hv)⟩
  · rw [if_pos (by simpa using h1)]
    exact iff_of_true ⟨_, rfl⟩
      (Or.inl fun hch => h1 ((validate_iff_chain market_ts).2 hch))

/-- The fields of `MarketData` (src/utils/types.py lines 80-100) used by the
engine, with the timestamp as a rational tick time. -/
structure MarketData where
  timestamp : ℚ
  symbol : String
  price : ℚ
  volume : ℚ
  bid : ℚ
  ask : ℚ
deriving Repr, DecidableEq

/-- `BacktestOrder` (engine.py lines 19-38). -/
structure BacktestOrder where
  order_id : String
  symbol : String
  side : String
  size : ℚ
  limit_price : ℚ
  timestamp : ℚ
  fill_price : Option ℚ
  filled : Bool
deriving Repr, DecidableEq

/-- `Backtester._simulate_fill` (engine.py lines 297-328): a BUY fills when
the ask crosses the limit, at `ask + ask * slippage_bps/10000`; a SELL fills
when the bid crosses the limit, at `bid - bid * slippage_bps/10000`; otherwise
the order stays pending. -/
def simulateFill (slippage_bps : ℚ) (order : BacktestOrder) (data : MarketData) :
    Option ℚ :=
  if order.side = "BUY" then
    if data.ask ≤ order.limit_price then
      some (data.ask + data.ask * (slippage_bps / 10000))
    else none
  else
    if data.bid ≥ order.limit_price then
      some (data.bid - data.bid * (slippage_bps / 10000))
    else none

/-- `BacktestPosition` (engine.py lines 41-49), the fields used here. -/
structure BacktestPosition where
  symbol : String
  size : ℚ
  entry_price : ℚ
  realized_pnl : ℚ
  unrealized_pnl : ℚ
deriving Repr, DecidableEq

/-- The closing orders built by `Backtester._close_all_positions`
(engine.py lines 424-449): every open position in the final tick's symbol is
closed by an opposite-side order whose fill price is the tick's `price`
field — not its bid or ask, and with no slippage applied. -/
def closeAllPositionsOrders (positions : List BacktestPosition) (data : MarketData) :
    List BacktestOrder :=
  positions.filterMap (fun position =>
    if position.size ≠ 0 ∧ position.symbol = data.symbol then
      let side : String := if position.size > 0 then "SELL" else "BUY"
      some ({ order_id := "close_" ++ position.symbol
              symbol := position.symbol
              side := side
              size := |position.size|
              limit_price := data.price
              timestamp := data.timestamp
              fill_price := some data.price
              filled := true } : BacktestOrder)
    else none)

/-- C4 counterexample: force-closing a long position of 10 units at a final
tick with price 100, bid 99.95, ask 100.05 produces a SELL order filled at
100, which is above the bid and therefore outside the claimed SELL band
`[bid*(1 - 2*slippage_bps/10000), bid]` for every slippage setting. -/
theorem C4_counterexample :
    (closeAllPositionsOrders [⟨"X", 10, 95, 0, 0⟩]
        ⟨0, "X", 100, 0, 1999/20, 2001/20⟩).map (fun o => (o.side, o.fill_price))
      = [("SELL", some 100)] ∧
    ¬ ((100:ℚ) ≤ 1999/20) := by
  constructor
  · norm_num [closeAllPositionsOrders, List.filterMap_cons]
  · norm_num

/-- C4 (amended): every fill produced by `_simulate_fill` respects the
slippage bounds — a BUY fills in `[ask, ask*(1 + 2*slippage_bps/10000)]` and a
SELL in `[bid*(1 - 2*slippage_bps/10000), bid]` — but positions force-closed
at run end fill exactly at the final tick's `price` field, which need not lie
inside those bands. -/
theorem C4_slippage_bounds (slippage_bps : ℚ) (order : BacktestOrder)
    (data : MarketData) (p : ℚ)
    (hs : 0 ≤ slippage_bps) (hask : 0 < data.ask) (hbid : 0 < data.bid)
    (hfill : simulateFill slippage_bps order data = some p) :
    ((order.side = "BUY" →
        data.ask ≤ p ∧ p ≤ data.ask * (1 + 2 * slippage_bps / 10000)) ∧
     (order.side ≠ "BUY" →
        data.bid * (1 - 2 * slippage_bps / 10000) ≤ p ∧ p ≤ data.bid)) ∧
    ∀ positions, ∀ o ∈ closeAllPositionsOrders positions data,
      o.fill_price = some data.price := by
  constructor
  · unfold simulateFill at hfill
    by_cases hside : order.side = "BUY"
    · rw [if_pos hside] at hfill
      refine ⟨fun _ => ?_, fun hne => absurd hside hne⟩
      by_cases hcross : data.ask ≤ order.limit_price
      · rw [if_pos hcross] at hfill
        have hp : p = data.ask + data.ask * (slippage_bps / 10000) :=
          (Option.some_inj.1 hfill).symm
        subst hp
        constructor
        · nlinarith
        · nlinarith
      · rw [if_neg hcross] at hfill
        exact Option.noConfusion hfill
    · rw [if_neg hside] at hfill
      refine ⟨fun hy => absurd hy hside, fun _ => ?_⟩
      by_cases hcross : data.bid ≥ order.limit_price
      · rw [if_pos hcross] at hfill
        have hp : p = data.bid - data.bid * (slippage_bps / 10000) :=
          (Option.some_inj.1 hfill).symm
        subst hp
        constructor
        · nlinarith
        · nlinarith
      · rw [if_neg hcross] at hfill
        exact Option.noConfusion hfill
  · intro positions o ho
    unfold closeAllPositionsOrders at ho
    rcases List.mem_filterMap.1 ho with ⟨position, _, hmk⟩
    by_cases hcond : position.size ≠ 0 ∧ position.symbol = data.symbol
    · rw [if_pos hcond] at hmk
      rw [← Option.some_inj.1 hmk]
    · rw [if_neg hcond] at hmk
      exact Option.noConfusion hmk

/-- Witness for C4 at the spec's end-to-end tick: a BUY with limit 101.05
against ask 100.05 under 5 bps slippage fills at 100.05 × 1.0005. -/
theorem C4_slippage_bounds_witness :
    (0:ℚ) ≤ 5 ∧ (0:ℚ) < 2001/20 ∧ (0:ℚ) < 1999/20 ∧
    simulateFill 5 ⟨"o1", "X", "BUY", 48, 10105/100, 0, none, false⟩
        ⟨0, "X", 100, 0, 1999/20, 2001/20⟩ = some (4004001/40000) ∧
    ((("BUY":String) = "BUY" →
        (2001:ℚ)/20 ≤ 4004001/40000 ∧
        (4004001:ℚ)/40000 ≤ 2001/20 * (1 + 2 * 5 / 10000)) ∧
     (("BUY":String) ≠ "BUY" →
        (1999:ℚ)/20 * (1 - 2 * 5 / 10000) ≤ 4004001/40000 ∧
        (4004001:ℚ)/40000 ≤ 1999/20)) ∧
    ∀ positions, ∀ o ∈ closeAllPositionsOrders positions
        ⟨0, "X", 100, 0, 1999/20, 2001/20⟩,
      o.fill_price = some ((⟨0, "X", 100, 0, 1999/20, 2001/20⟩ : MarketData)).price :=
  ⟨by norm_num, by norm_num, by norm_num, by norm_num [simulateFill],
   C4_slippage_bounds 5 ⟨"o1", "X", "BUY", 48, 10105/100, 0, none, false⟩
     ⟨0, "X", 100, 0, 1999/20, 2001/20⟩ (4004001/40000)
     (by norm_num) (by norm_num) (by norm_num) (by norm_num [simulateFill])⟩

/-- A row of `Backtester.trade_log` (engine.py lines 277-285). -/
structure TradeRecord where
  timestamp : ℚ
  symbol : String
  side : String
  size : ℚ
  price : ℚ
  commission : ℚ
  regime : String
deriving Repr, DecidableEq

/-- `Backtester._is_winning_trade` (engine.py lines 509-514): the placeholder
classifies every trade as winning. -/
def isWinningTrade (_trade : TradeRecord) : Bool := true

/-- The win-rate computation of `Backtester._calculate_metrics`
(engine.py lines 479-483): winning trades counted through
`_is_winning_trade`, divided by the trade count when positive. -/
def winRate (trade_log : List TradeRecord) : ℚ :=
  let winning_trades := ((trade_log.filter (fun t => isWinningTrade t)).length : ℚ)
  let total_trades := ((trade_log.length : ℚ))
  if trade_log.length > 0 then winning_trades / total_trades else 0

/-- C10: whenever the trade log is non-empty, the reported win rate is exactly
1, because `_is_winning_trade` classifies every trade as winning. -/
theorem C10_win_rate_one (trade_log : List TradeRecord) (h : trade_log ≠ []) :
    winRate trade_log = 1 := by
  unfold winRate isWinningTrade
  have hlen : 0 < trade_log.length := List.length_pos.2 h
  rw [if_pos hlen]
  simp only [List.filter_true]
  exact div_self (by exact_mod_cast Nat.pos_iff_ne_zero.1 hlen)

/-- Witness for C10 on a one-trade log. -/
theorem C10_win_rate_one_witness :
    ([⟨0, "X", "BUY", 1, 100, 0, "uncertain"⟩] : List TradeRecord) ≠ [] ∧
    winRate [⟨0, "X", "BUY", 1, 100, 0, "uncertain"⟩] = 1 :=
  ⟨List.cons_ne_nil _ _,
   C10_win_rate_one [⟨0, "X", "BUY", 1, 100, 0, "uncertain"⟩] (List.cons_ne_nil _ _)⟩

/-! ## Position sizer (src/strategy/position_sizer.py) -/

/-- Configuration of `PositionSizer.__init__` (position_sizer.py lines
23-44). -/
structure PositionSizer where
  base_position_pct : ℚ
  max_position_pct : ℚ
  min_confidence : ℚ
deriving Repr, DecidableEq

/-- The sizer the source constructs by default (base 0.1, max 0.2,
min confidence 0.3). -/
def defaultSizer : PositionSizer := ⟨1/10, 2/10, 3/10⟩

/-- The direction step of `PositionSizer.calculate_size` (position_sizer.py
lines 122-124): the sign of the signal strength is copied onto the size. -/
def signedSize (signal_strength position_size : ℚ) : ℚ :=
  if signal_strength < 0 then -position_size else position_size

/-- The exposure-cap tail of `PositionSizer.calculate_size` (position_sizer.py
lines 101-124): when the capped percentage would push total exposure above
0.8, reduce it to the available headroom (zero size when no headroom), then
scale by capital and apply the signal's direction. -/
def finalizeSize (signal_strength capital current_exposure position_pct : ℚ) : ℚ :=
  if current_exposure + position_pct > 8/10 then
    let available_exposure := 8/10 - current_exposure
    if available_exposure > 0 then
      signedSize signal_strength (available_exposure * capital)
    else 0
  else
    signedSize signal_strength (position_pct * capital)

/-- `PositionSizer.calculate_size` (position_sizer.py lines 46-133): zero
below the confidence or strength gates; otherwise base × |strength| ×
confidence × regime multiplier, capped at the per-position maximum, then the
exposure-cap tail above. -/
def PositionSizer.calculate_size (ps : PositionSizer) (signal_strength confidence : ℚ)
    (regime : String) (capital : ℚ) (regime_multiplier : ℚ)
    (current_exposure : ℚ) : ℚ :=
  if confidence < ps.min_confidence then 0
  else if |signal_strength| < 1/100 then 0
  else
    let strength_factor := |signal_strength|
    let confidence_factor := confidence
    let position_pct₀ :=
      ps.base_position_pct * strength_factor * confidence_factor * regime_multiplier
    let position_pct₁ := min position_pct₀ ps.max_position_pct
    finalizeSize signal_strength capital current_exposure position_pct₁

lemma abs_signedSize (s z : ℚ) : |signedSize s z| = |z| := by
  unfold signedSize
  split_ifs <;> simp [abs_neg]

/-- `finalizeSize` is monotone in the capped percentage, in absolute value,
for nonnegative percentages and positive capital. -/
lemma finalizeSize_abs_mono (s cap e p p' : ℚ) (hcap : 0 < cap)
    (hp0 : 0 ≤ p) (hmono : p ≤ p') :
    |finalizeSize s cap e p| ≤ |finalizeSize s cap e p'| := by
  unfold finalizeSize
  by_cases t' : e + p' > 8/10
  · rw [if_pos t']
    by_cases t : e + p > 8/10
    · rw [if_pos t]
    · rw [if_neg t]
      push_neg at t
      by_cases ha : (8:ℚ)/10 - e > 0
      · rw [if_pos ha, abs_signedSize, abs_signedSize,
          abs_of_nonneg (mul_nonneg hp0 hcap.le),
          abs_of_nonneg (mul_nonneg ha.le hcap.le)]
        exact mul_le_mul_of_nonneg_right (by linarith) hcap.le
      · rw [if_neg ha]
        push_neg at ha
        have hpz : p = 0 := le_antisymm (by linarith) hp0
        rw [hpz]
        simp [signedSize]
  · rw [if_neg t']
    by_cases t : e + p > 8/10
    · exact absurd t (by push_neg; push_neg at t'; linarith)
    · rw [if_neg t, abs_signedSize, abs_signedSize,
        abs_of_nonneg (mul_nonneg hp0 hcap.le),
        abs_of_nonneg (mul_nonneg (hp0.trans hmono) hcap.le)]
      exact mul_le_mul_of_nonneg_right hmono hcap.le

/-- C8: `PositionSizer.calculate_size` is monotone in confidence at the
spec's probe points: for every fixed signal strength, regime, capital > 0,
regime multiplier ≥ 0 and current exposure, the absolute size at confidence
0.9 is at least the absolute size at confidence 0.4. -/
theorem C8_confidence_monotone (signal_strength : ℚ) (regime : String)
    (capital regime_multiplier current_exposure : ℚ)
    (hcap : 0 < capital) (hm : 0 ≤ regime_multiplier) :
    |defaultSizer.calculate_size signal_strength (4/10) regime capital
        regime_multiplier current_exposure|
      ≤ |defaultSizer.calculate_size signal_strength (9/10) regime capital
          regime_multiplier current_exposure| := by
  unfold PositionSizer.calculate_size defaultSizer
  dsimp only
  rw [if_neg (show ¬ (4:ℚ)/10 < 3/10 by norm_num),
    if_neg (show ¬ (9:ℚ)/10 < 3/10 by norm_num)]
  by_cases hw : |signal_strength| < 1/100
  · rw [if_pos hw, if_pos hw]
  · rw [if_neg hw, if_neg hw]
    have habs : 0 ≤ |signal_strength| := abs_nonneg signal_strength
    have hq0 : 0 ≤ 1/10 * |signal_strength| * (4/10) * regime_multiplier := by positivity
    have hqmono : 1/10 * |signal_strength| * (4/10) * regime_multiplier
        ≤ 1/10 * |signal_strength| * (9/10) * regime_multiplier := by nlinarith
    exact finalizeSize_abs_mono signal_strength capital current_exposure _ _ hcap
      (le_min hq0 (by norm_num)) (min_le_min hqmono le_rfl)

/-- Witness for C8 at the spec's end-to-end signal strength 0.6. -/
theorem C8_confidence_monotone_witness :
    (0:ℚ) < 100000 ∧ (0:ℚ) ≤ 1 ∧
    |defaultSizer.calculate_size (6/10) (4/10) "trending" 100000 1 0|
      ≤ |defaultSizer.calculate_size (6/10) (9/10) "trending" 100000 1 0| :=
  ⟨by norm_num, by norm_num,
   C8_confidence_monotone (6/10) "trending" 100000 1 0 (by norm_num) (by norm_num)⟩

end MetroQuant
